import Mathlib

/-!
# Verification model of the `break_tracker` utility

A shallow embedding of `break_tracker.py`: a terminal break timer that counts
down a requested number of minutes, notifies on expiry, offers a snooze loop,
persists per-day statistics, and optionally emails a daily summary.

External effects are modelled explicitly:

* the on-disk daily data file is an `Option BreakData` value (`none` = file
  absent) threaded through the functions that read and write it;
* the current date, yesterday's date and the session-start timestamp are
  string parameters (the program compares dates by string equality);
* wall-clock time is counted in whole seconds: each countdown tick sleeps one
  second, and the time a user spends at a prompt is a parameter of the event;
* the interactive session is driven by a script of `Step` events (prompt
  answers and cancel signals), mirroring the branch structure of `run_break`;
* the SMTP transaction is a parameter of type `Except String Unit`: `.ok` if
  the block of SMTP calls succeeds, `.error e` if any of them raises an
  exception whose message is `e`.

Line numbers refer to `break_tracker.py`.
-/

set_option autoImplicit false

namespace BreakTracker

/-! ## Data model -/

/-- One logged break event, as appended at lines 246-252: the session start
timestamp (ISO string), the minutes recorded for the session, and the number
of snoozes taken. -/
structure BreakEvent where
  start : String
  minutes : Int
  snoozes : Nat
  deriving DecidableEq

/-- The single daily record held in `break_data.json`: date string
(`YYYY-MM-DD`), accumulated minutes, the ordered list of break events, and
the `report_sent` flag (absent in the JSON defaults to `false`, line 142's
`data.get("report_sent", False)`). -/
structure BreakData where
  date : String
  total_minutes : Int
  breaks : List BreakEvent
  report_sent : Bool
  deriving DecidableEq

/-- The fresh zero-valued record built at lines 70-74 when no stored record
matches today (the JSON literal has no `report_sent` key, which reads back as
`false`). -/
def freshBreakData (today : String) : BreakData :=
  { date := today, total_minutes := 0, breaks := [], report_sent := false }

/-- `load_break_data` (lines 59-74): if the data file exists and its `date`
equals today's date string, return the stored record unchanged; otherwise
return a fresh zero-valued record for today. -/
def load_break_data (stored : Option BreakData) (today : String) : BreakData :=
  match stored with
  | some data => if data.date = today then data else freshBreakData today
  | none => freshBreakData today

/-- The terminal update of `run_break` (lines 244-253): add the session total
to the daily accumulator and append the break event, then persist. -/
def record_break (data : BreakData) (startIso : String)
    (totalBreakMinutes : Int) (snoozeCount : Nat) : BreakData :=
  { data with
      total_minutes := data.total_minutes + totalBreakMinutes,
      breaks := data.breaks ++
        [{ start := startIso, minutes := totalBreakMinutes,
           snoozes := snoozeCount }] }

/-! ## Configuration and email -/

/-- The `email` section of the configuration record (lines 25-35). -/
structure EmailConfig where
  enabled : Bool
  smtp_server : String
  smtp_port : Int
  from_email : String
  to_email : String
  password : String
  deriving DecidableEq

/-- The configuration record (lines 25-35). -/
structure Config where
  email : EmailConfig
  default_snooze_minutes : Int
  deriving DecidableEq

/-- Observable outcome of `send_daily_email`: how many SMTP connections were
attempted and which lines were printed.  The function is total: in the code
every exception raised inside the `try` block is caught at line 130 and only
printed, so no error value escapes. -/
structure EmailResult where
  networkCalls : Nat
  output : List String
  deriving DecidableEq

/-- `send_daily_email` (lines 108-131): a no-op when email is disabled;
otherwise one SMTP transaction is attempted, and its outcome (`transport`)
decides whether the success line or the single failure line (line 131,
carrying the exception message) is printed. -/
def send_daily_email (config : Config) (yesterday_minutes : Int)
    (transport : Except String Unit) : EmailResult :=
  if !config.email.enabled then
    { networkCalls := 0, output := [] }
  else
    match transport with
    | Except.ok _ =>
        { networkCalls := 1,
          output := ["✉️  Daily report sent: " ++ toString yesterday_minutes
            ++ " minutes"] }
    | Except.error e =>
        { networkCalls := 1,
          output := ["❌ Failed to send email: " ++ e] }

/-- Observable outcome of `check_and_send_yesterday_report`: the data file
after the call, the number of SMTP connections attempted, and the printed
lines. -/
structure ReportResult where
  stored : Option BreakData
  emailSends : Nat
  output : List String
  deriving DecidableEq

/-- `check_and_send_yesterday_report` (lines 134-145): if the data file exists,
its date equals yesterday and `report_sent` is not set, email the summary,
set `report_sent := true` and save; otherwise leave everything untouched. -/
def check_and_send_yesterday_report (config : Config)
    (transport : Except String Unit) (stored : Option BreakData)
    (yesterday : String) : ReportResult :=
  match stored with
  | none => { stored := none, emailSends := 0, output := [] }
  | some data =>
      if data.date = yesterday && !data.report_sent then
        let em := send_daily_email config data.total_minutes transport
        { stored := some { data with report_sent := true },
          emailSends := em.networkCalls,
          output := em.output }
      else
        { stored := some data, emailSends := 0, output := [] }

/-! ## The break session loop -/

/-- The user's answer at the snooze prompt, after the code's
`input("👉 ").strip().lower()` (line 208) and the `int(response)` attempt
(line 223): the empty string, the letter `s`, a string that `int()` parses to
`n`, or a string that raises `ValueError`. -/
inductive Response where
  | empty : Response
  | sKey : Response
  | intVal : Int → Response
  | nonNumeric : Response
  deriving DecidableEq

/-- One event of an interactive session.  Each loop iteration of `run_break`
runs a countdown and then a prompt, and the cancel signal (KeyboardInterrupt)
can arrive in either phase:

* `answer think r` — the countdown runs to zero, the notification fires and,
  after `think` seconds at the prompt, the user answers `r`;
* `cancelAtPrompt think` — the countdown runs to zero, the notification
  fires, and after `think` seconds at the prompt the cancel signal arrives
  (caught by the inner handler at lines 234-236);
* `cancelInCountdown t` — the cancel signal arrives `t` seconds into the
  current countdown (caught by the outer handler at lines 238-242). -/
inductive Step where
  | answer : Nat → Response → Step
  | cancelAtPrompt : Nat → Step
  | cancelInCountdown : Nat → Step
  deriving DecidableEq

/-- A desktop notification fired on countdown expiry (lines 186-197):
either the plain first-expiry message, which mentions only the current
requested duration, or the snooze message carrying the printed ordinal
(`snooze_count + 1` in the code) and the accumulated nominal minutes. -/
inductive Notif where
  | firstOver : Int → Notif
  | snoozeOver : Nat → Int → Notif
  deriving DecidableEq

/-- Observable outcome of one break session: the recorded minutes, the snooze
count, whether the outer KeyboardInterrupt handler ran, the wall-clock seconds
since session start, and the notifications fired. -/
structure SessionResult where
  totalMinutes : Int
  snoozes : Nat
  interrupted : Bool
  elapsedSeconds : Nat
  notifications : List Notif
  deriving DecidableEq

/-- Seconds a full countdown of `minutes` minutes takes: the inner loop
(lines 175-181) starts from `remaining = minutes * 60` and sleeps one second
per iteration while `remaining > 0`. -/
def countdownSeconds (minutes : Int) : Nat := (minutes * 60).toNat

/-- The notification fired on countdown expiry (lines 186-197): plain
first-expiry message when `snooze_count == 0`, otherwise the snooze message
with ordinal `snooze_count + 1` and the accumulated total. -/
def notifyAtExpiry (snoozeCount : Nat) (minutes totalBreakMinutes : Int) :
    Notif :=
  if snoozeCount = 0 then Notif.firstOver minutes
  else Notif.snoozeOver (snoozeCount + 1) totalBreakMinutes

/-- The `while True` loop of `run_break` (lines 172-242), driven by a script
of events.  State: `default_snooze_minutes` from the configuration (line 215),
the current countdown duration `minutes`, `snooze_count`,
`total_break_minutes`, the elapsed wall-clock seconds since `break_start`, and
the notifications fired so far.  Returns `none` when the script is exhausted
with the session still running.

* A completed countdown adds `countdownSeconds minutes` to the clock and
  fires a notification; the prompt then adds the user's think time.
* `Response.empty`, a non-positive `Response.intVal`, and
  `Response.nonNumeric` break out of the loop (lines 210-212, 229-232);
  `Response.sKey` snoozes by the default (lines 213-219) and a positive
  `Response.intVal n` snoozes by `n` (lines 222-228), each incrementing
  `snooze_count` and adding to `total_break_minutes`.
* The cancel signal at the prompt is caught by the *inner* handler (lines
  234-236), which breaks out of the loop leaving the totals unchanged.
* The cancel signal during a countdown reaches the *outer* handler (lines
  238-242), which overwrites `total_break_minutes` with
  `int(elapsed_seconds / 60)`. -/
def runLoop (default_snooze_minutes : Int) :
    Int → Nat → Int → Nat → List Notif → List Step → Option SessionResult
  | _, _, _, _, _, [] => none
  | minutes, snoozeCount, total, elapsed, notifs, step :: rest =>
      match step with
      | Step.cancelInCountdown t =>
          let e := elapsed + t
          some { totalMinutes := ((e / 60 : Nat) : Int), snoozes := snoozeCount,
                 interrupted := true, elapsedSeconds := e,
                 notifications := notifs }
      | Step.cancelAtPrompt think =>
          let e := elapsed + countdownSeconds minutes + think
          some { totalMinutes := total, snoozes := snoozeCount,
                 interrupted := false, elapsedSeconds := e,
                 notifications :=
                   notifs ++ [notifyAtExpiry snoozeCount minutes total] }
      | Step.answer think r =>
          let e := elapsed + countdownSeconds minutes + think
          let notifs2 := notifs ++ [notifyAtExpiry snoozeCount minutes total]
          match r with
          | Response.empty =>
              some { totalMinutes := total, snoozes := snoozeCount,
                     interrupted := false, elapsedSeconds := e,
                     notifications := notifs2 }
          | Response.sKey =>
              runLoop default_snooze_minutes default_snooze_minutes
                (snoozeCount + 1) (total + default_snooze_minutes) e notifs2
                rest
          | Response.intVal n =>
              if 0 < n then
                runLoop default_snooze_minutes n (snoozeCount + 1) (total + n)
                  e notifs2 rest
              else
                some { totalMinutes := total, snoozes := snoozeCount,
                       interrupted := false, elapsedSeconds := e,
                       notifications := notifs2 }
          | Response.nonNumeric =>
              some { totalMinutes := total, snoozes := snoozeCount,
                     interrupted := false, elapsedSeconds := e,
                     notifications := notifs2 }

/-- `run_break` (lines 157-253): load the daily record, run the session loop
from the requested duration, then add the session total to the accumulator,
append the break event and persist.  Returns the persisted record together
with the session outcome, or `none` if the script leaves the session
running. -/
def run_break (stored : Option BreakData) (today startIso : String)
    (config : Config) (minutes : Int) (steps : List Step) :
    Option (BreakData × SessionResult) :=
  let data := load_break_data stored today
  match runLoop config.default_snooze_minutes minutes 0 minutes 0 [] steps with
  | none => none
  | some res =>
      some (record_break data startIso res.totalMinutes res.snoozes, res)

/-! ## Command-line entry point -/

/-- Strip leading and trailing whitespace characters, as Python's `int()`
does on its string argument. -/
def trimChars (cs : List Char) : List Char :=
  ((cs.dropWhile Char.isWhitespace).reverse.dropWhile Char.isWhitespace).reverse

/-- Parse a non-empty all-digit character list to its decimal value. -/
def pyIntDigits (cs : List Char) : Option Nat :=
  if !cs.isEmpty && cs.all Char.isDigit then
    some (cs.foldl (fun a c => a * 10 + (c.toNat - 48)) 0)
  else none

/-- Python's `int(str)` builtin as used at line 301: trims whitespace, then
accepts an optional sign followed by decimal digits, and raises `ValueError`
(here: `none`) otherwise.  (Underscore digit separators, which Python also
accepts, are not modelled.) -/
def parsePyInt (s : String) : Option Int :=
  match trimChars s.data with
  | [] => none
  | c :: cs =>
      if c = '-' then (pyIntDigits cs).map (fun n => -(n : Int))
      else if c = '+' then (pyIntDigits cs).map (fun n => (n : Int))
      else (pyIntDigits (c :: cs)).map (fun n => (n : Int))

/-- What `main` does with its command-line argument (lines 293-311). -/
inductive MainAction where
  | showStats : MainAction
  | runBreakAction : Int → MainAction
  | errorNonPositive : MainAction
  | errorInvalid : String → MainAction
  deriving DecidableEq

/-- Outcome of `main`: the dispatched action and the process exit status.
No branch of `main` calls `sys.exit`, so every branch returns normally with
status `0`. -/
structure MainResult where
  action : MainAction
  exitCode : Nat
  deriving DecidableEq

/-- The argument dispatch of `main` (lines 280-311): no argument shows stats;
an argument that `int()` parses runs a break when positive and prints the
non-positive error otherwise; a non-parsing argument shows stats when it is
one of `stats`, `status`, `s`, and prints the invalid-input error otherwise.
Every branch falls through to a normal return (exit status 0). -/
def main (arg : Option String) : MainResult :=
  match arg with
  | none => { action := MainAction.showStats, exitCode := 0 }
  | some a =>
      match parsePyInt a with
      | some n =>
          if n ≤ 0 then { action := MainAction.errorNonPositive, exitCode := 0 }
          else { action := MainAction.runBreakAction n, exitCode := 0 }
      | none =>
          if a = "stats" || a = "status" || a = "s" then
            { action := MainAction.showStats, exitCode := 0 }
          else { action := MainAction.errorInvalid a, exitCode := 0 }

/-! ## Spec-side vocabulary for session scripts -/

/-- A snooze taken at the prompt, as the spec describes it: either the
default-snooze key `s` (duration = configured default) or a custom
positive-integer entry of `d` minutes; `think` is the seconds spent at the
prompt before answering. -/
inductive SnoozeChoice where
  | useDefault : Nat → SnoozeChoice
  | custom : Int → Nat → SnoozeChoice
  deriving DecidableEq

/-- The prompt answer a snooze choice corresponds to. -/
def snoozeStep : SnoozeChoice → Step
  | SnoozeChoice.useDefault think => Step.answer think Response.sKey
  | SnoozeChoice.custom d think => Step.answer think (Response.intVal d)

/-- The nominal duration a snooze choice requests. -/
def chosenDuration (default_snooze_minutes : Int) : SnoozeChoice → Int
  | SnoozeChoice.useDefault _ => default_snooze_minutes
  | SnoozeChoice.custom d _ => d

/-- Sum of the nominal durations of a list of snooze choices. -/
def sumDurations (default_snooze_minutes : Int)
    (choices : List SnoozeChoice) : Int :=
  (choices.map (chosenDuration default_snooze_minutes)).sum

/-- Prompt answers that end the break (lines 210-212, 229-232): the empty
string, a parsed integer that is not positive, or a `ValueError`. -/
def isEndingResponse : Response → Bool
  | Response.empty => true
  | Response.sKey => false
  | Response.intVal n => decide (n ≤ 0)
  | Response.nonNumeric => true

/-- Steps at which the loop terminates without reaching the outer
KeyboardInterrupt handler: an ending prompt answer or a cancel signal at the
prompt (caught by the inner handler). -/
def isTerminalEnd : Step → Bool
  | Step.answer _ r => isEndingResponse r
  | Step.cancelAtPrompt _ => true
  | Step.cancelInCountdown _ => false

/-- Spec-side description of the post-snooze notifications of a session that
has already taken `k` snoozes accumulating `acc` nominal minutes: the expiry
of the next snooze (the `(k+1)`-th of the session) reports printed ordinal
`k + 2` — one more than the snooze ordinal — and the cumulative nominal
minutes through that snooze. -/
def snoozeNotifsFrom (default_snooze_minutes : Int) :
    Nat → Int → List SnoozeChoice → List Notif
  | _, _, [] => []
  | k, acc, c :: cs =>
      Notif.snoozeOver (k + 2) (acc + chosenDuration default_snooze_minutes c)
        :: snoozeNotifsFrom default_snooze_minutes (k + 1)
          (acc + chosenDuration default_snooze_minutes c) cs

/-- The invariant of every persisted daily record: the accumulator equals the
sum of the minutes of the logged break events, and it is non-negative. -/
def dataInvariant (d : BreakData) : Prop :=
  d.total_minutes = (d.breaks.map BreakEvent.minutes).sum ∧
    0 ≤ d.total_minutes

instance (d : BreakData) : Decidable (dataInvariant d) := by
  unfold dataInvariant; infer_instance

/-- A sample configuration for instantiating quantified theorems at concrete
inputs. -/
def sampleConfig : Config :=
  { email :=
      { enabled := true, smtp_server := "smtp.example.com", smtp_port := 587,
        from_email := "from@example.com", to_email := "to@example.com",
        password := "pw" },
    default_snooze_minutes := 5 }

/-- A sample stored daily record for instantiating quantified theorems at
concrete inputs. -/
def sampleRecord : BreakData :=
  { date := "2024-01-01", total_minutes := 30,
    breaks := [{ start := "T09", minutes := 30, snoozes := 0 }],
    report_sent := false }

/-- The sample configuration with email disabled. -/
def sampleConfigDisabled : Config :=
  { email :=
      { enabled := false, smtp_server := "smtp.example.com", smtp_port := 587,
        from_email := "from@example.com", to_email := "to@example.com",
        password := "pw" },
    default_snooze_minutes := 5 }

/-! ## Helper lemmas -/

/-- Running the loop on a script of snoozes with positive durations followed
by one terminating step yields: total = starting total plus the nominal sum,
snoozes = starting count plus the number of choices, the outer interrupt
handler untouched, and one notification per expiry (the first reflecting the
state at entry, then one per snooze). -/
theorem runLoop_snoozeScript (dflt : Int) (choices : List SnoozeChoice) :
    ∀ (m : Int) (sc : Nat) (total : Int) (elapsed : Nat)
      (notifs : List Notif) (last : Step),
      isTerminalEnd last = true →
      (∀ c ∈ choices, 0 < chosenDuration dflt c) →
      ∃ res, runLoop dflt m sc total elapsed notifs
          (choices.map snoozeStep ++ [last]) = some res ∧
        res.totalMinutes = total + sumDurations dflt choices ∧
        res.snoozes = sc + choices.length ∧
        res.interrupted = false ∧
        res.notifications = notifs ++ notifyAtExpiry sc m total ::
          snoozeNotifsFrom dflt sc total choices := by
  induction choices with
  | nil =>
      intro m sc total elapsed notifs last hterm _
      cases last with
      | answer think r =>
          cases r with
          | empty => simp [runLoop, sumDurations, snoozeNotifsFrom]
          | sKey => simp [isTerminalEnd, isEndingResponse] at hterm
          | intVal n =>
              have hn : ¬ 0 < n := by
                simp [isTerminalEnd, isEndingResponse] at hterm; omega
              simp [runLoop, if_neg hn, sumDurations, snoozeNotifsFrom]
          | nonNumeric => simp [runLoop, sumDurations, snoozeNotifsFrom]
      | cancelAtPrompt think =>
          simp [runLoop, sumDurations, snoozeNotifsFrom]
      | cancelInCountdown t => simp [isTerminalEnd] at hterm
  | cons c cs ih =>
      intro m sc total elapsed notifs last hterm hpos
      have hc : 0 < chosenDuration dflt c := hpos c (List.mem_cons_self c cs)
      have hcs : ∀ x ∈ cs, 0 < chosenDuration dflt x :=
        fun x hx => hpos x (List.mem_cons_of_mem c hx)
      cases c with
      | useDefault think =>
          obtain ⟨res, heq, h1, h2, h3, h4⟩ :=
            ih dflt (sc + 1) (total + dflt)
              (elapsed + countdownSeconds m + think)
              (notifs ++ [notifyAtExpiry sc m total]) last hterm hcs
          refine ⟨res, ?_, ?_, ?_, h3, ?_⟩
          · simpa [runLoop, snoozeStep] using heq
          · rw [h1]; simp [sumDurations, chosenDuration]; ring
          · rw [h2]; simp; omega
          · rw [h4]
            simp [snoozeNotifsFrom, chosenDuration, notifyAtExpiry]
      | custom d think =>
          have hd : 0 < d := by simpa [chosenDuration] using hc
          obtain ⟨res, heq, h1, h2, h3, h4⟩ :=
            ih d (sc + 1) (total + d)
              (elapsed + countdownSeconds m + think)
              (notifs ++ [notifyAtExpiry sc m total]) last hterm hcs
          refine ⟨res, ?_, ?_, ?_, h3, ?_⟩
          · simpa [runLoop, snoozeStep, if_pos hd] using heq
          · rw [h1]; simp [sumDurations, chosenDuration]; ring
          · rw [h2]; simp; omega
          · rw [h4]
            simp [snoozeNotifsFrom, chosenDuration, notifyAtExpiry]

/-- At most one SMTP connection is attempted per `send_daily_email` call. -/
theorem send_daily_email_networkCalls_le_one (config : Config) (m : Int)
    (transport : Except String Unit) :
    (send_daily_email config m transport).networkCalls ≤ 1 := by
  unfold send_daily_email
  cases h : config.email.enabled <;> cases transport <;> simp

/-- A session started from a positive total with a positive configured
default snooze never records a negative total: ending keeps the (positive)
nominal sum and interruption records `elapsed / 60 ≥ 0`. -/
theorem runLoop_totalMinutes_nonneg (dflt : Int) (hdflt : 0 < dflt) :
    ∀ (steps : List Step) (m : Int) (sc : Nat) (total : Int) (elapsed : Nat)
      (notifs : List Notif) (res : SessionResult), 0 < total →
      runLoop dflt m sc total elapsed notifs steps = some res →
      0 ≤ res.totalMinutes := by
  intro steps
  induction steps with
  | nil => intro m sc total elapsed notifs res _ h; simp [runLoop] at h
  | cons step rest ih =>
      intro m sc total elapsed notifs res htotal h
      cases step with
      | cancelInCountdown t =>
          simp [runLoop] at h
          rw [← h]
          exact Int.natCast_nonneg _
      | cancelAtPrompt think =>
          simp [runLoop] at h
          rw [← h]
          exact le_of_lt htotal
      | answer think r =>
          cases r with
          | empty =>
              simp [runLoop] at h; rw [← h]; exact le_of_lt htotal
          | sKey =>
              simp only [runLoop] at h
              exact ih _ _ _ _ _ _ (by omega) h
          | intVal n =>
              by_cases hn : 0 < n
              · simp only [runLoop, if_pos hn] at h
                exact ih _ _ _ _ _ _ (by omega) h
              · simp [runLoop, if_neg hn] at h
                rw [← h]
                exact le_of_lt htotal
          | nonNumeric =>
              simp [runLoop] at h; rw [← h]; exact le_of_lt htotal

/-- Loading the daily store preserves the record invariant: the fresh record
satisfies it trivially, and a stored record for today is returned as-is. -/
theorem dataInvariant_load (stored : Option BreakData) (today : String)
    (h : ∀ d, stored = some d → dataInvariant d) :
    dataInvariant (load_break_data stored today) := by
  cases stored with
  | none => simp [load_break_data, freshBreakData, dataInvariant]
  | some d =>
      by_cases hd : d.date = today
      · simpa [load_break_data, hd] using h d rfl
      · simp [load_break_data, hd, freshBreakData, dataInvariant]

/-- `record_break` preserves the record invariant when the session total is
non-negative: the same amount is added to the accumulator and to the sum of
the logged events. -/
theorem dataInvariant_record_break (data : BreakData) (startIso : String)
    (s : Int) (k : Nat) (hinv : dataInvariant data) (hs : 0 ≤ s) :
    dataInvariant (record_break data startIso s k) := by
  obtain ⟨heq, hnn⟩ := hinv
  constructor
  · simp [record_break, heq]
  · simp [record_break]; omega

/-! ## Claims -/

/-- C1 (counterexample): start a 5-minute break and send the cancel signal
120 seconds into the prompt.  The claim predicts the interrupted path with
recorded minutes `420 / 60 = 7`; the code takes the inner prompt handler,
leaving the interrupted flag unset and the nominal 5 minutes recorded. -/
theorem c1_counterexample :
    ¬ ((runLoop 5 5 0 5 0 [] [Step.cancelAtPrompt 120]).map
        (fun r => (r.interrupted, r.totalMinutes))
      = some (true, ((420 / 60 : Nat) : Int))) := by decide

/-- C1 (amended): a cancel signal while PROMPTING is caught by the inner
handler (lines 234-236): the session ends like an ordinary prompt ending —
the outer interrupted path is not taken and the recorded minutes are the
nominal sum of the requested durations, not the elapsed wall-clock
minutes. -/
theorem c1_cancel_at_prompt_records_nominal :
    ∀ (dflt d0 : Int) (choices : List SnoozeChoice) (think : Nat),
      (∀ c ∈ choices, 0 < chosenDuration dflt c) →
      (runLoop dflt d0 0 d0 0 []
          (choices.map snoozeStep ++ [Step.cancelAtPrompt think])).map
          (fun r => (r.totalMinutes, r.snoozes, r.interrupted))
        = some (d0 + sumDurations dflt choices, choices.length, false) := by
  intro dflt d0 choices think hpos
  obtain ⟨res, heq, h1, h2, h3, _⟩ :=
    runLoop_snoozeScript dflt choices d0 0 d0 0 []
      (Step.cancelAtPrompt think) rfl hpos
  simp [heq, h1, h2, h3]

/-- C1 (witness): a 5-minute break with one 3-minute snooze, cancelled at the
second prompt, records the nominal 8 minutes with one snooze and no
interrupted flag. -/
theorem c1_cancel_at_prompt_records_nominal_witness :
    (runLoop 5 5 0 5 0 []
        ([SnoozeChoice.custom 3 10].map snoozeStep ++ [Step.cancelAtPrompt 120])).map
        (fun r => (r.totalMinutes, r.snoozes, r.interrupted))
      = some (5 + sumDurations 5 [SnoozeChoice.custom 3 10], 1, false) :=
  c1_cancel_at_prompt_records_nominal 5 5 [SnoozeChoice.custom 3 10] 120
    (by decide)

/-- C2: a session of initial duration `d0` that takes the snoozes `choices`
(default key or positive-integer entry) and then ends via the prompt records
`d0` plus the sum of the snooze durations — the nominal sum — and snooze
count `n`, and persists exactly that pair: the daily accumulator grows by the
nominal sum and the appended event carries it. -/
theorem c2_nominal_sum_recorded :
    ∀ (stored : Option BreakData) (today startIso : String) (config : Config)
      (d0 : Int) (choices : List SnoozeChoice) (think : Nat) (r : Response),
      isEndingResponse r = true →
      (∀ c ∈ choices, 0 < chosenDuration config.default_snooze_minutes c) →
      (run_break stored today startIso config d0
          (choices.map snoozeStep ++ [Step.answer think r])).map
          (fun p => (p.1, p.2.totalMinutes, p.2.snoozes, p.2.interrupted))
        = some (record_break (load_break_data stored today) startIso
              (d0 + sumDurations config.default_snooze_minutes choices)
              choices.length,
            d0 + sumDurations config.default_snooze_minutes choices,
            choices.length, false) := by
  intro stored today startIso config d0 choices think r hend hpos
  obtain ⟨res, heq, h1, h2, h3, _⟩ :=
    runLoop_snoozeScript config.default_snooze_minutes choices d0 0 d0 0 []
      (Step.answer think r) (by simp [isTerminalEnd, hend]) hpos
  simp [run_break, heq, h1, h2, h3]

/-- C2 (witness): a 3-minute break, one default snooze (5) and one custom
2-minute snooze, ended with the empty answer, records 10 nominal minutes and
2 snoozes. -/
theorem c2_nominal_sum_recorded_witness :
    (run_break none "2024-01-02" "T10" sampleConfig 3
        ([SnoozeChoice.useDefault 4, SnoozeChoice.custom 2 7].map snoozeStep
          ++ [Step.answer 0 Response.empty])).map
        (fun p => (p.1, p.2.totalMinutes, p.2.snoozes, p.2.interrupted))
      = some (record_break (load_break_data none "2024-01-02") "T10"
            (3 + sumDurations sampleConfig.default_snooze_minutes
              [SnoozeChoice.useDefault 4, SnoozeChoice.custom 2 7]) 2,
          3 + sumDurations sampleConfig.default_snooze_minutes
            [SnoozeChoice.useDefault 4, SnoozeChoice.custom 2 7], 2, false) :=
  c2_nominal_sum_recorded none "2024-01-02" "T10" sampleConfig 3
    [SnoozeChoice.useDefault 4, SnoozeChoice.custom 2 7] 0 Response.empty
    (by decide) (by decide)

/-- C3: a cancel signal `t` seconds into the initial countdown records
`⌊t / 60⌋` minutes — the elapsed wall-clock minutes — regardless of the
requested duration, with no snoozes and the interrupted path taken. -/
theorem c3_interrupt_initial_countdown :
    ∀ (dflt d0 : Int) (t : Nat) (rest : List Step),
      t ≤ countdownSeconds d0 →
      (runLoop dflt d0 0 d0 0 [] (Step.cancelInCountdown t :: rest)).map
          (fun r => (r.totalMinutes, r.interrupted, r.snoozes, r.elapsedSeconds))
        = some (((t / 60 : Nat) : Int), true, 0, t) := by
  intro dflt d0 t rest _
  simp [runLoop]

/-- C3 (witness): cancelling a 5-minute break 130 seconds in records 2
minutes. -/
theorem c3_interrupt_initial_countdown_witness :
    (runLoop 5 5 0 5 0 [] [Step.cancelInCountdown 130]).map
        (fun r => (r.totalMinutes, r.interrupted, r.snoozes, r.elapsedSeconds))
      = some (((130 / 60 : Nat) : Int), true, 0, 130) :=
  c3_interrupt_initial_countdown 5 5 130 [] (by decide)

/-- C4: loading the daily store on a date different from the stored one (or
with no stored record) yields the fresh record — date = today, zero total,
no breaks — and loading on the stored date returns the stored record
unchanged. -/
theorem c4_load_break_data_rollover :
    ∀ (stored : Option BreakData) (today : String),
      (∀ d, stored = some d → d.date ≠ today →
        load_break_data stored today = freshBreakData today) ∧
      (stored = none → load_break_data stored today = freshBreakData today) ∧
      (∀ d, stored = some d → d.date = today →
        load_break_data stored today = d) ∧
      (freshBreakData today).date = today ∧
      (freshBreakData today).total_minutes = 0 ∧
      (freshBreakData today).breaks = [] := by
  intro stored today
  refine ⟨?_, ?_, ?_, rfl, rfl, rfl⟩
  · rintro d rfl hne
    simp [load_break_data, hne]
  · rintro rfl
    rfl
  · rintro d rfl heq
    simp [load_break_data, heq]

/-- C4 (witness): yesterday's record is discarded on rollover. -/
theorem c4_load_break_data_rollover_witness :
    load_break_data
        (some { date := "2024-01-01", total_minutes := 30,
                breaks := [{ start := "T09", minutes := 30, snoozes := 1 }],
                report_sent := true }) "2024-01-02"
      = freshBreakData "2024-01-02" :=
  (c4_load_break_data_rollover _ "2024-01-02").1 _ rfl (by decide)

/-- C5: with a stored record dated yesterday and not yet marked sent, the
first report check attempts the email and marks the record sent whatever the
SMTP outcome; a second check on the resulting store changes nothing and
attempts nothing, so the two runs together attempt at most one email. -/
theorem c5_report_at_most_once :
    ∀ (config : Config) (tr1 tr2 : Except String Unit) (d : BreakData)
      (yesterday : String),
      d.date = yesterday → d.report_sent = false →
      (check_and_send_yesterday_report config tr1 (some d) yesterday).stored
          = some { d with report_sent := true } ∧
      check_and_send_yesterday_report config tr2
          (some { d with report_sent := true }) yesterday
        = { stored := some { d with report_sent := true }, emailSends := 0,
            output := [] } ∧
      (check_and_send_yesterday_report config tr1 (some d) yesterday).emailSends
          + (check_and_send_yesterday_report config tr2
              (some { d with report_sent := true }) yesterday).emailSends
        ≤ 1 := by
  intro config tr1 tr2 d yesterday hdate hsent
  have h1 := send_daily_email_networkCalls_le_one config d.total_minutes tr1
  refine ⟨?_, ?_, ?_⟩
  · simp [check_and_send_yesterday_report, hdate, hsent]
  · simp [check_and_send_yesterday_report]
  · simp [check_and_send_yesterday_report, hdate, hsent]
    omega

/-- C5 (witness): two consecutive report checks over yesterday's record, the
first with a failing SMTP transaction. -/
theorem c5_report_at_most_once_witness :
    (check_and_send_yesterday_report sampleConfig (Except.error "boom")
        (some sampleRecord) "2024-01-01").stored
      = some { sampleRecord with report_sent := true } :=
  (c5_report_at_most_once sampleConfig (Except.error "boom") (Except.ok ())
    sampleRecord "2024-01-01" rfl rfl).1

/-- C6: with email disabled, `send_daily_email` attempts no SMTP connection
and prints nothing; with email enabled and the SMTP transaction raising an
exception with message `e`, it prints exactly the one failure line carrying
`e`.  In both cases the function returns an ordinary result — the catch-all
handler at line 130 means no exception escapes. -/
theorem c6_send_daily_email_behavior :
    ∀ (config : Config) (m : Int),
      (∀ transport, config.email.enabled = false →
        send_daily_email config m transport
          = { networkCalls := 0, output := [] }) ∧
      (∀ e, config.email.enabled = true →
        send_daily_email config m (Except.error e)
          = { networkCalls := 1,
              output := ["❌ Failed to send email: " ++ e] }) := by
  intro config m
  constructor
  · intro transport hdis
    simp [send_daily_email, hdis]
  · intro e hen
    simp [send_daily_email, hen]

/-- C6 (witness): the disabled no-op and the caught connection error. -/
theorem c6_send_daily_email_behavior_witness :
    send_daily_email sampleConfigDisabled 30 (Except.ok ())
      = { networkCalls := 0, output := [] } ∧
    send_daily_email sampleConfig 30 (Except.error "Connection failed")
      = { networkCalls := 1,
          output := ["❌ Failed to send email: Connection failed"] } :=
  ⟨(c6_send_daily_email_behavior _ 30).1 (Except.ok ()) rfl,
   (c6_send_daily_email_behavior sampleConfig 30).2 "Connection failed" rfl⟩

/-- C7 (counterexample): a 5-minute break with one 3-minute snooze.  At the
expiry of that first snooze the claim predicts ordinal 1; the code fires
`Snooze #2` (`snooze_count + 1`), with the cumulative 8 nominal minutes. -/
theorem c7_counterexample :
    ¬ ((runLoop 5 5 0 5 0 []
          [Step.answer 0 (Response.intVal 3), Step.answer 0 Response.empty]).map
          (fun r => r.notifications[1]?)
        = some (some (Notif.snoozeOver 1 8))) := by decide

/-- C7 (amended): the first expiry fires the plain message naming the initial
duration; the expiry of the `k`-th snooze fires the snooze message with
printed ordinal `k + 1` — one more than the snooze ordinal — and the
cumulative nominal minutes through that snooze, as laid out by
`snoozeNotifsFrom`. -/
theorem c7_notification_sequence :
    ∀ (dflt d0 : Int) (choices : List SnoozeChoice) (last : Step),
      isTerminalEnd last = true →
      (∀ c ∈ choices, 0 < chosenDuration dflt c) →
      (runLoop dflt d0 0 d0 0 [] (choices.map snoozeStep ++ [last])).map
          (fun r => r.notifications)
        = some (Notif.firstOver d0 :: snoozeNotifsFrom dflt 0 d0 choices) := by
  intro dflt d0 choices last hterm hpos
  obtain ⟨res, heq, _, _, _, h4⟩ :=
    runLoop_snoozeScript dflt choices d0 0 d0 0 [] last hterm hpos
  simp [heq, h4, notifyAtExpiry]

/-- C7 (witness): a 5-minute break with a 3-minute then a default snooze
fires the plain message and then `Snooze #2` / `Snooze #3` with cumulative
8 and 13 minutes. -/
theorem c7_notification_sequence_witness :
    (runLoop 5 5 0 5 0 []
        ([SnoozeChoice.custom 3 0, SnoozeChoice.useDefault 0].map snoozeStep
          ++ [Step.answer 0 Response.empty])).map
        (fun r => r.notifications)
      = some (Notif.firstOver 5 :: snoozeNotifsFrom 5 0 5
          [SnoozeChoice.custom 3 0, SnoozeChoice.useDefault 0]) :=
  c7_notification_sequence 5 5 [SnoozeChoice.custom 3 0, SnoozeChoice.useDefault 0]
    (Step.answer 0 Response.empty) rfl (by decide)

/-- C8: the command-line dispatch of `main`: no argument shows stats; an
argument `int()` parses to a positive `n` runs a break of `n` minutes;
`stats`, `status` and `s` show stats; any other argument `int()` rejects
prints the invalid-input error; and every branch returns normally with exit
status 0 — no distinct error exit code exists. -/
theorem c8_main_dispatch :
    main none = { action := MainAction.showStats, exitCode := 0 } ∧
    (∀ a n, parsePyInt a = some n → 0 < n →
      main (some a)
        = { action := MainAction.runBreakAction n, exitCode := 0 }) ∧
    main (some "stats") = { action := MainAction.showStats, exitCode := 0 } ∧
    main (some "status") = { action := MainAction.showStats, exitCode := 0 } ∧
    main (some "s") = { action := MainAction.showStats, exitCode := 0 } ∧
    (∀ a, parsePyInt a = none → a ≠ "stats" → a ≠ "status" → a ≠ "s" →
      main (some a)
        = { action := MainAction.errorInvalid a, exitCode := 0 }) ∧
    (∀ arg, (main arg).exitCode = 0) := by
  refine ⟨rfl, ?_, by decide, by decide, by decide, ?_, ?_⟩
  · intro a n hp hn
    simp [main, hp, show ¬ n ≤ 0 by omega]
  · intro a hp h1 h2 h3
    simp [main, hp, h1, h2, h3]
  · intro arg
    cases arg with
    | none => rfl
    | some a =>
        cases hp : parsePyInt a with
        | none =>
            simp only [main, hp]
            split <;> rfl
        | some n =>
            simp only [main, hp]
            split <;> rfl

/-- C8 (witness): `7` runs a 7-minute break and `week` is rejected with the
invalid-input error, both with exit status 0. -/
theorem c8_main_dispatch_witness :
    main (some "7")
        = { action := MainAction.runBreakAction 7, exitCode := 0 } ∧
    main (some "week")
        = { action := MainAction.errorInvalid "week", exitCode := 0 } :=
  ⟨c8_main_dispatch.2.1 "7" 7 (by decide) (by decide),
   c8_main_dispatch.2.2.2.2.2.1 "week" (by decide) (by decide) (by decide)
     (by decide)⟩

/-- C9: the argument `5` dispatches to a 5-minute break; with no stored data
the session runs the full 300-second countdown and, ended at the first
prompt, persists the record with today's date, `total_minutes = 5` and one
break event with 5 minutes and 0 snoozes; and in general every terminal
transition persists the loaded record with the accumulator incremented by
the session total and the event appended. -/
theorem c9_five_minute_break_persists :
    main (some "5")
        = { action := MainAction.runBreakAction 5, exitCode := 0 } ∧
    (∀ (today startIso : String) (config : Config) (think : Nat),
      run_break none today startIso config 5 [Step.answer think Response.empty]
        = some ({ date := today, total_minutes := 5,
                  breaks := [{ start := startIso, minutes := 5,
                               snoozes := 0 }],
                  report_sent := false },
                { totalMinutes := 5, snoozes := 0, interrupted := false,
                  elapsedSeconds := 300 + think,
                  notifications := [Notif.firstOver 5] })) ∧
    (∀ (stored : Option BreakData) (today startIso : String)
      (config : Config) (m : Int) (steps : List Step) (res : SessionResult),
      runLoop config.default_snooze_minutes m 0 m 0 [] steps = some res →
      run_break stored today startIso config m steps
        = some (record_break (load_break_data stored today) startIso
            res.totalMinutes res.snoozes, res)) := by
  refine ⟨by decide, ?_, ?_⟩
  · intro today startIso config think
    simp [run_break, runLoop, load_break_data, freshBreakData, record_break,
      countdownSeconds, notifyAtExpiry]
  · intro stored today startIso config m steps res heq
    simp [run_break, heq]

/-- C9 (witness): the concrete 5-minute session with no stored data, and the
general persistence shape at a concrete interrupted session. -/
theorem c9_five_minute_break_persists_witness :
    run_break none "2024-01-02" "T10" sampleConfig 5
        [Step.answer 0 Response.empty]
      = some ({ date := "2024-01-02", total_minutes := 5,
                breaks := [{ start := "T10", minutes := 5, snoozes := 0 }],
                report_sent := false },
              { totalMinutes := 5, snoozes := 0, interrupted := false,
                elapsedSeconds := 300, notifications := [Notif.firstOver 5] }) :=
  c9_five_minute_break_persists.2.1 "2024-01-02" "T10" sampleConfig 0

/-- C10: every daily record the program writes satisfies `dataInvariant`
(accumulator = sum of logged event minutes, non-negative) provided the
record it read did: the loaded record is the fresh zeroed one or the stored
one as-is; the terminal save of a session started from a positive requested
duration under a positive configured default snooze adds the same
non-negative session total to the accumulator and the appended event; and
marking the report sent changes neither field. -/
theorem c10_written_records_satisfy_invariant :
    (∀ (stored : Option BreakData) (today : String),
      (∀ d, stored = some d → dataInvariant d) →
      dataInvariant (load_break_data stored today)) ∧
    (∀ (stored : Option BreakData) (today startIso : String)
      (config : Config) (m : Int) (steps : List Step) (d2 : BreakData)
      (res : SessionResult),
      (∀ d, stored = some d → dataInvariant d) →
      0 < config.default_snooze_minutes → 0 < m →
      run_break stored today startIso config m steps = some (d2, res) →
      dataInvariant d2) ∧
    (∀ (config : Config) (transport : Except String Unit)
      (stored : Option BreakData) (yesterday : String) (d2 : BreakData),
      (∀ d, stored = some d → dataInvariant d) →
      (check_and_send_yesterday_report config transport stored
          yesterday).stored = some d2 →
      dataInvariant d2) := by
  refine ⟨dataInvariant_load, ?_, ?_⟩
  · intro stored today startIso config m steps d2 res hstored hdflt hm hrun
    unfold run_break at hrun
    cases heq : runLoop config.default_snooze_minutes m 0 m 0 [] steps with
    | none => rw [heq] at hrun; simp at hrun
    | some r =>
        rw [heq] at hrun
        simp only [Option.some.injEq, Prod.mk.injEq] at hrun
        obtain ⟨hd2, -⟩ := hrun
        rw [← hd2]
        exact dataInvariant_record_break _ _ _ _
          (dataInvariant_load stored today hstored)
          (runLoop_totalMinutes_nonneg config.default_snooze_minutes hdflt
            steps m 0 m 0 [] r hm heq)
  · intro config transport stored yesterday d2 hstored hsave
    cases stored with
    | none => simp [check_and_send_yesterday_report] at hsave
    | some d =>
        have hd := hstored d rfl
        simp only [check_and_send_yesterday_report] at hsave
        by_cases hc : (d.date = yesterday && !d.report_sent) = true
        · rw [if_pos hc] at hsave
          simp at hsave
          subst hsave
          exact hd
        · rw [if_neg hc] at hsave
          simp at hsave
          subst hsave
          exact hd

/-- C10 (witness): the invariant holds for the record persisted by a
concrete snoozed session over a stored record that satisfies it. -/
theorem c10_written_records_satisfy_invariant_witness :
    dataInvariant { date := "2024-01-01", total_minutes := 38,
                    breaks := [{ start := "T09", minutes := 30, snoozes := 0 },
                               { start := "T11", minutes := 8, snoozes := 1 }],
                    report_sent := false } :=
  c10_written_records_satisfy_invariant.2.1 (some sampleRecord) "2024-01-01"
    "T11" sampleConfig 3
    [Step.answer 0 (Response.sKey), Step.answer 0 Response.empty]
    { date := "2024-01-01", total_minutes := 38,
      breaks := [{ start := "T09", minutes := 30, snoozes := 0 },
                 { start := "T11", minutes := 8, snoozes := 1 }],
      report_sent := false }
    { totalMinutes := 8, snoozes := 1, interrupted := false,
      elapsedSeconds := 480,
      notifications := [Notif.firstOver 3, Notif.snoozeOver 2 8] }
    (fun d h => by
      simp only [Option.some.injEq] at h
      rw [← h]
      decide)
    (by decide) (by decide) (by decide)

end BreakTracker
